import Mathlib

/-!
Shallow embedding of the boundary-resolution and spatial-clipping pipeline of
`src/main.py` (GIS Project Starter).

Modelling conventions:
* Geometries are abstract: a `Geometry` carries its GeoJSON-style type name
  (as reported by `GeoDataFrame.geom_type`, e.g. "Polygon", "LineString")
  and an opaque shape payload.  The underlying geometry engine (shapely/GEOS)
  is external to the program, so its operations (per-feature intersection used
  by `gpd.clip`, unary union used by `dissolve`, reprojection used by
  `to_crs`) are parameters, collected in a `GeoEngine`.
* A `GeoDataFrame` is a CRS tag (`Option String`, `none` = no declared CRS)
  plus an ordered list of features; features carry their attribute row as an
  association list.  The typed reference datasets (states, counties, places)
  are embedded with named fields mirroring the TIGER columns the code reads.
* Python exceptions become `Except Err`; each `raise ValueError(...)` site in
  the source is mapped to the error-taxonomy constructor the spec assigns to
  it, carrying the message text of the source.
* File download / unzip / `gpd.read_file` are external collaborators: the
  already-loaded datasets are arguments.  `to_file` output is modelled by an
  explicit file-store state in `clip_and_write`.
* Python `str` helpers (`strip`, `lower`, `upper`, `zfill`, `isdigit`) are
  re-implemented for ASCII inputs (Python additionally handles some non-ASCII
  whitespace and digit characters; all data the program handles is ASCII).
-/

/-- Abstract geometry: its reported geometry type name and an opaque payload
standing for the actual coordinates. -/
structure Geometry where
  geomType : String
  shape : Nat
deriving DecidableEq, Repr

/-- One row of a generic vector layer: attribute columns and a geometry. -/
structure Feature where
  attrs : List (String × String)
  geometry : Geometry
deriving DecidableEq, Repr

/-- A loaded vector dataset: declared CRS (or `none`) and its features. -/
structure GeoDataFrame where
  crs : Option String
  features : List Feature
deriving DecidableEq, Repr

/-- One row of the TIGER states reference dataset (columns the code reads). -/
structure StateRow where
  NAME : String
  STUSPS : String
  STATEFP : String
  geometry : Geometry
deriving DecidableEq, Repr

/-- The loaded states reference dataset. -/
structure StatesGDF where
  crs : Option String
  rows : List StateRow
deriving DecidableEq, Repr

/-- One row of the TIGER counties reference dataset. -/
structure CountyRow where
  GEOID : String
  geometry : Geometry
deriving DecidableEq, Repr

/-- The loaded counties reference dataset. -/
structure CountiesGDF where
  crs : Option String
  rows : List CountyRow
deriving DecidableEq, Repr

/-- One row of a per-state TIGER places dataset. -/
structure PlaceRow where
  NAME : String
  STATEFP : String
  geometry : Geometry
deriving DecidableEq, Repr

/-- A loaded per-state places dataset. -/
structure PlacesGDF where
  crs : Option String
  rows : List PlaceRow
deriving DecidableEq, Repr

/-- External geometry-engine operations the program calls but does not
implement: per-feature intersection (`gpd.clip`; `none` = empty result,
discarded), unary union (`dissolve`), and reprojection (`to_crs`). -/
structure GeoEngine where
  inter : Geometry → Geometry → Option Geometry
  unionMany : List Geometry → Geometry
  reproject : String → Geometry → Geometry

/-- Error taxonomy of the spec; each constructor carries the message text of
the corresponding `raise ValueError(...)` site in `src/main.py`. -/
inductive Err where
  | invalidInput (msg : String)
  | unresolvedIdentifier (msg : String)
  | boundaryNotFound (msg : String)
  | missingCRS (msg : String)
deriving DecidableEq, Repr

/-- Whitespace characters removed by Python `str.strip` (ASCII fragment). -/
def pyIsSpace (c : Char) : Bool :=
  c == ' ' || c == '\t' || c == '\n' || c == '\r' || c == '\x0b' || c == '\x0c'

/-- Python `str.strip()` for ASCII whitespace. -/
def pyStrip (s : String) : String :=
  String.mk (((s.data.dropWhile pyIsSpace).reverse.dropWhile pyIsSpace).reverse)

/-- ASCII lower-casing of one character. -/
def asciiLower (c : Char) : Char :=
  if 'A' ≤ c ∧ c ≤ 'Z' then Char.ofNat (c.toNat + 32) else c

/-- ASCII upper-casing of one character. -/
def asciiUpper (c : Char) : Char :=
  if 'a' ≤ c ∧ c ≤ 'z' then Char.ofNat (c.toNat - 32) else c

/-- Python `str.lower()` for ASCII strings. -/
def pyLower (s : String) : String := String.mk (s.data.map asciiLower)

/-- Python `str.upper()` for ASCII strings. -/
def pyUpper (s : String) : String := String.mk (s.data.map asciiUpper)

/-- Python `str.zfill(width)`: left-pad with `0` up to `width`, keeping a
leading sign in front of the padding. -/
def pyZfill (s : String) (width : Nat) : String :=
  if width ≤ s.length then s
  else
    let sign := if s.startsWith "+" || s.startsWith "-" then s.take 1 else ""
    let rest := if s.startsWith "+" || s.startsWith "-" then s.drop 1 else s
    sign ++ String.mk (List.replicate (width - s.length) '0') ++ rest

/-- Python `str.isdigit()` for ASCII strings: nonempty and all decimal
digits. -/
def pyIsDigit (s : String) : Bool :=
  !s.isEmpty && s.data.all Char.isDigit

/-- Geometry type names of the polygon family, as in `src/main.py` line 221. -/
def polygonish : List String := ["Polygon", "MultiPolygon"]

/-- Geometry type names of the line family, as in `src/main.py` line 222. -/
def lineish : List String := ["LineString", "MultiLineString"]

/-- Geometry type names of the point family, as in `src/main.py` line 223. -/
def pointish : List String := ["Point", "MultiPoint"]

/-- Python set inclusion `set(xs) <= set(ys)` on lists of type names. -/
def listSubset (xs ys : List String) : Bool :=
  xs.all (fun x => ys.contains x)

/-- Distinct geometry type names present in a layer:
`set(base.geom_type.unique())` of `src/main.py` line 220. -/
def geom_types (g : GeoDataFrame) : List String :=
  (g.features.map (fun f => f.geometry.geomType)).dedup

/-- Embedding of `resolve_state_fips` (`src/main.py` lines 84-106): try a
case-insensitive full-name match, then a case-insensitive postal-code match,
returning the first matching row's `STATEFP` zero-padded to 2 digits. -/
def resolve_state_fips (states_gdf : StatesGDF) (user_input : String) :
    Except Err String :=
  let text := pyStrip user_input
  match states_gdf.rows.filter (fun r => pyLower r.NAME == pyLower text) with
  | r :: _ => .ok (pyZfill r.STATEFP 2)
  | [] =>
    match states_gdf.rows.filter (fun r => pyUpper r.STUSPS == pyUpper text) with
    | r :: _ => .ok (pyZfill r.STATEFP 2)
    | [] => .error (.unresolvedIdentifier
        ("Could not resolve state " ++ user_input ++
         ". Use full name (e.g., Texas) or 2-letter code (e.g., TX)."))

/-- View of a states row as a generic feature (a pandas row selection keeps
all columns; we keep the ones the model tracks). -/
def stateFeature (r : StateRow) : Feature :=
  { attrs := [("NAME", r.NAME), ("STUSPS", r.STUSPS), ("STATEFP", r.STATEFP)]
    geometry := r.geometry }

/-- View of a counties row as a generic feature. -/
def countyFeature (r : CountyRow) : Feature :=
  { attrs := [("GEOID", r.GEOID)], geometry := r.geometry }

/-- View of a places row as a generic feature. -/
def placeFeature (r : PlaceRow) : Feature :=
  { attrs := [("NAME", r.NAME), ("STATEFP", r.STATEFP)], geometry := r.geometry }

/-- Embedding of geopandas `dissolve()` (no `by` column): all rows merge into
one row whose geometry is the unary union of every geometry and whose
attributes come from the first row.  The code only dissolves nonempty
selections; an empty frame stays empty. -/
def dissolve (eng : GeoEngine) (g : GeoDataFrame) : GeoDataFrame :=
  { crs := g.crs
    features :=
      match g.features with
      | [] => []
      | f :: _ =>
        [{ attrs := f.attrs
           geometry := eng.unionMany (g.features.map (fun x => x.geometry)) }] }

/-- Embedding of `build_boundary` (`src/main.py` lines 109-153): state mode
resolves the identifier and dissolves the matching state rows; fips mode
validates the 5-digit county code and dissolves the matching county rows. -/
def build_boundary (eng : GeoEngine) (boundary_type boundary_value : String)
    (states : StatesGDF) (counties : CountiesGDF) : Except Err GeoDataFrame :=
  let btype := pyStrip (pyLower boundary_type)
  let bval := pyStrip boundary_value
  if btype == "state" then
    match resolve_state_fips states bval with
    | .error e => .error e
    | .ok state_fips =>
      let bsub := states.rows.filter (fun r => r.STATEFP == state_fips)
      if bsub.isEmpty then
        .error (.boundaryNotFound ("No state found for " ++ bval ++ "."))
      else
        .ok (dissolve eng { crs := states.crs, features := bsub.map stateFeature })
  else if btype == "fips" then
    if bval.length != 5 || !pyIsDigit bval then
      .error (.invalidInput "County FIPS must be a 5-digit numeric code, e.g., 48113.")
    else
      let csub := counties.rows.filter (fun r => r.GEOID == bval)
      if csub.isEmpty then
        .error (.unresolvedIdentifier
          ("No county found with FIPS " ++ bval ++ ". Use the 5-digit GEOID value."))
      else
        .ok (dissolve eng { crs := counties.crs, features := csub.map countyFeature })
  else
    .error (.invalidInput "build_boundary only supports state or fips here.")

/-- Embedding of `build_city_boundary` (`src/main.py` lines 156-194).  The
per-state places dataset is downloaded by external collaborators; here it is
an argument.  Selection: case-insensitive exact place name AND `STATEFP`
equal to the resolved state, then dissolve. -/
def build_city_boundary (eng : GeoEngine) (city_name state_input : String)
    (states : StatesGDF) (places : PlacesGDF) : Except Err GeoDataFrame :=
  match resolve_state_fips states state_input with
  | .error e => .error e
  | .ok state_fips =>
    let subset := places.rows.filter
      (fun r => pyLower r.NAME == pyLower (pyStrip city_name) && r.STATEFP == state_fips)
    if subset.isEmpty then
      .error (.boundaryNotFound
        ("No place named " ++ city_name ++ " found in state " ++ state_input ++
         " (STATEFP=" ++ state_fips ++ ")."))
    else
      .ok (dissolve eng { crs := places.crs, features := subset.map placeFeature })

/-- Embedding of `GeoDataFrame.to_crs`: retag the frame and reproject each
geometry. -/
def to_crs (eng : GeoEngine) (target : String) (g : GeoDataFrame) : GeoDataFrame :=
  { crs := some target
    features := g.features.map (fun f => { f with geometry := eng.reproject target f.geometry }) }

/-- Single boundary geometry a clip works against: the union of the boundary
frame geometries. -/
def boundaryGeometry (eng : GeoEngine) (b : GeoDataFrame) : Geometry :=
  eng.unionMany (b.features.map (fun f => f.geometry))

/-- Embedding of `gpd.clip(base, boundary)`: intersect every base feature
with the boundary geometry, drop features with empty intersection, keep the
base CRS and original attributes. -/
def gpd_clip (eng : GeoEngine) (base boundary : GeoDataFrame) : GeoDataFrame :=
  { crs := base.crs
    features := base.features.filterMap (fun f =>
      (eng.inter f.geometry (boundaryGeometry eng boundary)).map
        (fun g => { f with geometry := g })) }

/-- CRS alignment step of `clip_layer_to_boundary` (`src/main.py` lines
211-214): if the CRSs differ, reproject the boundary into the base layer
CRS, else use the boundary as is. -/
def aligned_boundary (eng : GeoEngine) (base boundary_gdf : GeoDataFrame) : GeoDataFrame :=
  match base.crs with
  | some bcrs =>
    if boundary_gdf.crs ≠ base.crs then to_crs eng bcrs boundary_gdf else boundary_gdf
  | none => boundary_gdf

/-- Embedding of `clip_layer_to_boundary` (`src/main.py` lines 197-239, up to
the write): validate CRSs, align the boundary CRS, clip, then filter the
result to the geometry family derived from the pre-clip feature set. -/
def clip_layer_to_boundary (eng : GeoEngine) (base boundary_gdf : GeoDataFrame) :
    Except Err GeoDataFrame :=
  if base.crs = none ∨ boundary_gdf.crs = none then
    .error (.missingCRS "CRS missing on base or boundary")
  else
    let clipped := gpd_clip eng base (aligned_boundary eng base boundary_gdf)
    let gts := geom_types base
    let allowed :=
      if listSubset gts polygonish then polygonish
      else if listSubset gts lineish then lineish
      else if listSubset gts pointish then pointish
      else gts
    .ok { crs := clipped.crs
          features := clipped.features.filter (fun f => allowed.contains f.geometry.geomType) }

/-- File store written by `to_file`, keyed by output path. -/
def FileStore : Type := List (String × GeoDataFrame)

/-- Embedding of the whole `clip_layer_to_boundary` body including the final
`clipped.to_file(output_path)`: the write happens only after every earlier
step succeeded; an exception leaves the store untouched and is reported. -/
def clip_and_write (eng : GeoEngine) (base boundary_gdf : GeoDataFrame)
    (output_path : String) (fs : FileStore) : FileStore × Option Err :=
  match clip_layer_to_boundary eng base boundary_gdf with
  | .error e => (fs, some e)
  | .ok clipped => ((output_path, clipped) :: fs, none)

/-- Output folder of `src/main.py`. -/
def CLIPPED_FOLDER : String := "GIS_Project_Starter/clipped"

/-- Embedding of step 4 of `main` (`src/main.py` lines 316-324): clip roads,
catching any error, then clip counties, catching any error; each failure is
reported individually and never aborts the other clip. -/
def clip_all (eng : GeoEngine) (roads counties boundary : GeoDataFrame)
    (fs : FileStore) : FileStore × Option Err × Option Err :=
  let r := clip_and_write eng roads boundary (CLIPPED_FOLDER ++ "/roads_clipped.shp") fs
  let c := clip_and_write eng counties boundary (CLIPPED_FOLDER ++ "/counties_clipped.shp") r.1
  (c.1, r.2, c.2)

/-- Shorthand polygon geometry with payload `n`. -/
def pgon (n : Nat) : Geometry := ⟨"Polygon", n⟩

/-- Shorthand line geometry with payload `n`. -/
def lstr (n : Nat) : Geometry := ⟨"LineString", n⟩

/-- Engine whose intersection returns the first argument unchanged, union
returns the first geometry, reprojection is the identity. -/
def idEngine : GeoEngine :=
  { inter := fun a _ => some a
    unionMany := fun gs => gs.head?.getD (pgon 0)
    reproject := fun _ g => g }

/-- Engine whose union always reports a multi-polygon. -/
def polyEngine : GeoEngine :=
  { inter := fun a _ => some a
    unionMany := fun _ => ⟨"MultiPolygon", 0⟩
    reproject := fun _ g => g }

/-- Engine whose intersection degenerates polygons to points (a boundary-only
intersection artifact), used to probe the post-clip type filter. -/
def degenEngine : GeoEngine :=
  { inter := fun a _ => if a.geomType == "Polygon" then some ⟨"Point", 99⟩ else some a
    unionMany := fun gs => gs.head?.getD (pgon 0)
    reproject := fun _ g => g }

/-- Small concrete states reference dataset. -/
def sampleStates : StatesGDF :=
  { crs := some "EPSG:4269"
    rows := [⟨"Texas", "TX", "48", pgon 1⟩, ⟨"California", "CA", "06", pgon 2⟩] }

/-- Small concrete counties reference dataset. -/
def sampleCounties : CountiesGDF :=
  { crs := some "EPSG:4269"
    rows := [⟨"48113", pgon 3⟩, ⟨"06037", pgon 4⟩] }

/-- Small concrete per-state places dataset for Texas. -/
def samplePlaces : PlacesGDF :=
  { crs := some "EPSG:4269"
    rows := [⟨"Dallas", "48", pgon 5⟩, ⟨"Dallas", "48", pgon 6⟩] }

/-- States dataset with two records sharing one full name. -/
def dupStates : StatesGDF :=
  { crs := some "EPSG:4269"
    rows := [⟨"Dupland", "AA", "01", pgon 1⟩, ⟨"Dupland", "BB", "02", pgon 2⟩] }

/-- Concrete line layer with a declared CRS. -/
def sampleRoads : GeoDataFrame :=
  { crs := some "EPSG:4269", features := [⟨[("LINEARID", "1")], lstr 1⟩] }

/-- Concrete mixed-family layer (one polygon, one line). -/
def mixedBase : GeoDataFrame :=
  { crs := some "EPSG:4269"
    features := [⟨[("ID", "1")], pgon 10⟩, ⟨[("ID", "2")], lstr 11⟩] }

/-- Concrete boundary frame in a different CRS. -/
def sampleBdy : GeoDataFrame :=
  { crs := some "EPSG:3857", features := [⟨[("GEOID", "48113")], pgon 3⟩] }

/-- Concrete boundary frame in the same CRS as the sample layers. -/
def sameCrsBdy : GeoDataFrame :=
  { crs := some "EPSG:4269", features := [⟨[("GEOID", "48113")], pgon 3⟩] }

/-- Frame with no declared CRS. -/
def noCrsFrame : GeoDataFrame :=
  { crs := none, features := [⟨[("ID", "9")], pgon 9⟩] }

/-- What the spec means by a correctly-loaded reference state dataset, as far
as the Texas properties need it: it contains the Texas record, every record
matching Texas by name or postal code carries `STATEFP` 48, and no state full
name reads as the postal code TX. -/
def correctly_loaded_states (st : StatesGDF) : Prop :=
  (∃ r ∈ st.rows, r.NAME = "Texas" ∧ r.STUSPS = "TX" ∧ r.STATEFP = "48") ∧
  (∀ r ∈ st.rows, pyLower r.NAME = "texas" → r.STATEFP = "48") ∧
  (∀ r ∈ st.rows, pyUpper r.STUSPS = "TX" → r.STATEFP = "48") ∧
  (∀ r ∈ st.rows, pyLower r.NAME ≠ "tx")

/-- Concrete polygon-only layer. -/
def polyBase : GeoDataFrame :=
  { crs := some "EPSG:4269", features := [⟨[("GEOID", "48113")], pgon 3⟩] }

/-- C1: for layers and boundaries that both declare a CRS the clip succeeds;
the output is tagged with the layer CRS whatever the boundary CRS is; when
the CRSs differ the boundary is the one reprojected into the layer CRS; and
every output feature derives from an original, never reprojected, layer
feature intersected with the aligned boundary geometry. -/
theorem clip_crs_invariant (eng : GeoEngine) (base bdy : GeoDataFrame)
    (c1 c2 : String) (h1 : base.crs = some c1) (h2 : bdy.crs = some c2) :
    ∃ out, clip_layer_to_boundary eng base bdy = .ok out ∧
      out.crs = some c1 ∧
      (c1 ≠ c2 → aligned_boundary eng base bdy = to_crs eng c1 bdy) ∧
      ∀ f ∈ out.features, ∃ bf ∈ base.features,
        f.attrs = bf.attrs ∧
        eng.inter bf.geometry (boundaryGeometry eng (aligned_boundary eng base bdy)) =
          some f.geometry := by
  have hcond : ¬(base.crs = none ∨ bdy.crs = none) := by
    rw [h1, h2]; simp
  unfold clip_layer_to_boundary
  rw [if_neg hcond]
  refine ⟨_, rfl, ?_, ?_, ?_⟩
  · exact h1
  · intro hne
    unfold aligned_boundary
    rw [h1, h2]
    simp only [ne_eq, Option.some.injEq]
    rw [if_pos (fun hc => hne hc.symm)]
  · intro f hf
    have hf2 : f ∈ (gpd_clip eng base (aligned_boundary eng base bdy)).features :=
      List.mem_of_mem_filter hf
    simp only [gpd_clip, List.mem_filterMap] at hf2
    obtain ⟨bf, hbf, hmap⟩ := hf2
    obtain ⟨g, hg, hfg⟩ := Option.map_eq_some'.mp hmap
    cases hfg
    exact ⟨bf, hbf, rfl, hg⟩

/-- Closed instance of `clip_crs_invariant` at concrete inputs with differing
coordinate reference systems. -/
theorem clip_crs_invariant_witness :
    sampleRoads.crs = some "EPSG:4269" ∧ sampleBdy.crs = some "EPSG:3857" ∧
    ∃ out, clip_layer_to_boundary idEngine sampleRoads sampleBdy = .ok out ∧
      out.crs = some "EPSG:4269" ∧
      ("EPSG:4269" ≠ "EPSG:3857" →
        aligned_boundary idEngine sampleRoads sampleBdy = to_crs idEngine "EPSG:4269" sampleBdy) ∧
      ∀ f ∈ out.features, ∃ bf ∈ sampleRoads.features,
        f.attrs = bf.attrs ∧
        idEngine.inter bf.geometry
            (boundaryGeometry idEngine (aligned_boundary idEngine sampleRoads sampleBdy)) =
          some f.geometry :=
  ⟨rfl, rfl, clip_crs_invariant idEngine sampleRoads sampleBdy "EPSG:4269" "EPSG:3857" rfl rfl⟩

/-- C7: `clip_layer_to_boundary` fails with `MissingCRS` exactly when the
layer or the boundary (or both) lacks a declared CRS, and in the pipeline
each clip outcome is independent of the other layer and of the file store:
the counties report never depends on the roads layer, and vice versa. -/
theorem missing_crs_iff_and_clips_independent :
    (∀ (eng : GeoEngine) (base bdy : GeoDataFrame),
        (∃ m, clip_layer_to_boundary eng base bdy = .error (.missingCRS m)) ↔
          (base.crs = none ∨ bdy.crs = none))
    ∧ (∀ (eng : GeoEngine) (roads1 roads2 counties bdy : GeoDataFrame) (fs1 fs2 : FileStore),
        (clip_all eng roads1 counties bdy fs1).2.2 = (clip_all eng roads2 counties bdy fs2).2.2)
    ∧ (∀ (eng : GeoEngine) (roads counties1 counties2 bdy : GeoDataFrame) (fs1 fs2 : FileStore),
        (clip_all eng roads counties1 bdy fs1).2.1 = (clip_all eng roads counties2 bdy fs2).2.1) := by
  refine ⟨?_, ?_, ?_⟩
  · intro eng base bdy
    unfold clip_layer_to_boundary
    by_cases hc : base.crs = none ∨ bdy.crs = none
    · rw [if_pos hc]
      exact ⟨fun _ => hc, fun _ => ⟨"CRS missing on base or boundary", rfl⟩⟩
    · rw [if_neg hc]
      constructor
      · rintro ⟨m, hm⟩
        exact absurd hm (by simp)
      · intro h
        exact absurd h hc
  · intro eng roads1 roads2 counties bdy fs1 fs2
    unfold clip_all clip_and_write
    cases clip_layer_to_boundary eng counties bdy <;>
      cases clip_layer_to_boundary eng roads1 bdy <;>
      cases clip_layer_to_boundary eng roads2 bdy <;> rfl
  · intro eng roads counties1 counties2 bdy fs1 fs2
    unfold clip_all clip_and_write
    cases clip_layer_to_boundary eng roads bdy <;>
      cases clip_layer_to_boundary eng counties1 bdy <;>
      cases clip_layer_to_boundary eng counties2 bdy <;> rfl

/-- Closed instance of `missing_crs_iff_and_clips_independent`: a layer with
no declared CRS makes that clip fail with `MissingCRS`, yet the counties clip
outcome is the same as with a healthy roads layer. -/
theorem missing_crs_independent_witness :
    (∃ m, clip_layer_to_boundary idEngine noCrsFrame sameCrsBdy = .error (.missingCRS m)) ∧
    (clip_all idEngine noCrsFrame sampleRoads sameCrsBdy []).2.2 =
      (clip_all idEngine sampleRoads sampleRoads sameCrsBdy []).2.2 :=
  ⟨(missing_crs_iff_and_clips_independent.1 idEngine noCrsFrame sameCrsBdy).mpr (Or.inl rfl),
   missing_crs_iff_and_clips_independent.2.1 idEngine noCrsFrame sampleRoads sampleRoads
     sameCrsBdy [] []⟩

/-- C9: building a state boundary is deterministic in its inputs: two calls
on equal identifiers and equal reference datasets return equal results. -/
theorem build_boundary_deterministic (eng : GeoEngine) (v1 v2 : String)
    (s1 s2 : StatesGDF) (c1 c2 : CountiesGDF)
    (hv : v1 = v2) (hs : s1 = s2) (hc : c1 = c2) :
    build_boundary eng "state" v1 s1 c1 = build_boundary eng "state" v2 s2 c2 := by
  subst hv hs hc
  rfl

/-- Closed instance of `build_boundary_deterministic` at concrete inputs. -/
theorem build_boundary_deterministic_witness :
    build_boundary idEngine "state" "TX" sampleStates sampleCounties =
      build_boundary idEngine "state" "TX" sampleStates sampleCounties :=
  build_boundary_deterministic idEngine "TX" "TX" sampleStates sampleStates
    sampleCounties sampleCounties rfl rfl rfl

/-- C10: when the clip raises, the file store is untouched: the CRS check and
the clip precede the write, so an error outcome leaves every output
destination exactly as it was. -/
theorem clip_error_writes_nothing (eng : GeoEngine) (base bdy : GeoDataFrame)
    (p : String) (fs : FileStore) (e : Err)
    (h : (clip_and_write eng base bdy p fs).2 = some e) :
    (clip_and_write eng base bdy p fs).1 = fs := by
  unfold clip_and_write at h ⊢
  cases hx : clip_layer_to_boundary eng base bdy
  · rfl
  · rw [hx] at h
    simp at h

/-- Closed instance of `clip_error_writes_nothing`: clipping a CRS-less layer
reports an error and leaves the empty store empty. -/
theorem clip_error_writes_nothing_witness :
    (clip_and_write idEngine noCrsFrame sameCrsBdy "out.shp" []).1 = [] :=
  clip_error_writes_nothing idEngine noCrsFrame sameCrsBdy "out.shp" []
    (.missingCRS "CRS missing on base or boundary") rfl

/-- C3 (amended): `resolve_state_fips` fails with `UnresolvedIdentifier`
exactly when neither rule yields any match: both the full-name filter and the
postal-code filter on the stripped input are empty.  When a rule matches two
or more records the first match is returned, so a duplicated full name still
resolves (see the counterexample). -/
theorem resolve_state_unresolved_iff (st : StatesGDF) (user_input : String) :
    (∃ m, resolve_state_fips st user_input = .error (.unresolvedIdentifier m)) ↔
      (st.rows.filter (fun r => pyLower r.NAME == pyLower (pyStrip user_input)) = [] ∧
       st.rows.filter (fun r => pyUpper r.STUSPS == pyUpper (pyStrip user_input)) = []) := by
  unfold resolve_state_fips
  cases h1 : st.rows.filter (fun r => pyLower r.NAME == pyLower (pyStrip user_input)) with
  | cons r rest => simp [h1]
  | nil =>
    cases h2 : st.rows.filter (fun r => pyUpper r.STUSPS == pyUpper (pyStrip user_input)) with
    | cons r rest => simp [h1, h2]
    | nil => simp [h1, h2]

/-- Closed instance of `resolve_state_unresolved_iff`: an unknown name fails
with `UnresolvedIdentifier`. -/
theorem resolve_state_unresolved_witness :
    ∃ m, resolve_state_fips sampleStates "Zzzland" = .error (.unresolvedIdentifier m) :=
  (resolve_state_unresolved_iff sampleStates "Zzzland").mpr ⟨by decide, by decide⟩

/-- C3 counterexample: on a dataset where the full-name rule matches two
records, `resolve_state_fips` does not fail; it resolves to the first
matching record, contradicting the claim that an input matching two or more
records does not resolve to a single StateFIPS. -/
theorem resolve_state_duplicate_counterexample :
    (dupStates.rows.filter (fun r => pyLower r.NAME == pyLower (pyStrip "Dupland"))).length = 2 ∧
    resolve_state_fips dupStates "Dupland" = .ok "01" := by
  constructor
  · decide
  · rfl

/-- C4: the full-name rule is evaluated before the postal rule with
first-match-wins semantics: whenever the full-name filter is nonempty the
result is the first matching record's `STATEFP` zero-padded to 2 digits,
whatever postal matches exist; and on a correctly-loaded states dataset the
name Texas, the code TX and every case variant of either resolve to 48. -/
theorem resolve_state_rule_order_and_texas :
    (∀ (st : StatesGDF) (text : String) (r : StateRow) (rest : List StateRow),
        st.rows.filter (fun x => pyLower x.NAME == pyLower (pyStrip text)) = r :: rest →
        resolve_state_fips st text = .ok (pyZfill r.STATEFP 2))
    ∧ (∀ st : StatesGDF, correctly_loaded_states st →
        ∀ s : String,
          (pyLower (pyStrip s) = "texas" → resolve_state_fips st s = .ok "48") ∧
          (pyLower (pyStrip s) = "tx" ∧ pyUpper (pyStrip s) = "TX" →
            resolve_state_fips st s = .ok "48")) := by
  constructor
  · intro st text r rest hf
    simp only [resolve_state_fips, hf]
  · intro st hcl s
    obtain ⟨tex, htex_mem, htexN, htexS, htexF⟩ := hcl.1
    constructor
    · intro hs
      cases hf : st.rows.filter (fun r => pyLower r.NAME == pyLower (pyStrip s)) with
      | nil =>
        exfalso
        have hmem : tex ∈ st.rows.filter (fun r => pyLower r.NAME == pyLower (pyStrip s)) := by
          rw [List.mem_filter]
          refine ⟨htex_mem, ?_⟩
          rw [htexN, hs]
          rfl
        rw [hf] at hmem
        exact absurd hmem (List.not_mem_nil tex)
      | cons r rest =>
        have hrmem : r ∈ st.rows.filter (fun x => pyLower x.NAME == pyLower (pyStrip s)) := by
          rw [hf]
          exact List.mem_cons_self r rest
        rw [List.mem_filter] at hrmem
        have hr48 : r.STATEFP = "48" := by
          refine hcl.2.1 r hrmem.1 ?_
          have heq := eq_of_beq hrmem.2
          rw [heq, hs]
        simp only [resolve_state_fips, hf, hr48]
        rfl
    · rintro ⟨hlo, hup⟩
      have hnil : st.rows.filter (fun r => pyLower r.NAME == pyLower (pyStrip s)) = [] := by
        rw [List.filter_eq_nil_iff]
        intro r hr
        rw [hlo]
        simp only [beq_iff_eq]
        exact hcl.2.2.2 r hr
      cases hf : st.rows.filter (fun r => pyUpper r.STUSPS == pyUpper (pyStrip s)) with
      | nil =>
        exfalso
        have hmem : tex ∈ st.rows.filter (fun r => pyUpper r.STUSPS == pyUpper (pyStrip s)) := by
          rw [List.mem_filter]
          refine ⟨htex_mem, ?_⟩
          rw [htexS, hup]
          rfl
        rw [hf] at hmem
        exact absurd hmem (List.not_mem_nil tex)
      | cons r rest =>
        have hrmem : r ∈ st.rows.filter (fun x => pyUpper x.STUSPS == pyUpper (pyStrip s)) := by
          rw [hf]
          exact List.mem_cons_self r rest
        rw [List.mem_filter] at hrmem
        have hr48 : r.STATEFP = "48" := by
          refine hcl.2.2.1 r hrmem.1 ?_
          have heq := eq_of_beq hrmem.2
          rw [heq, hup]
        simp only [resolve_state_fips, hnil, hf, hr48]
        rfl

/-- Closed instance of `resolve_state_rule_order_and_texas`: on the sample
dataset, Texas, tEXas, TX and tx all resolve to 48. -/
theorem resolve_state_texas_witness :
    resolve_state_fips sampleStates "Texas" = .ok "48" ∧
    resolve_state_fips sampleStates "tEXas" = .ok "48" ∧
    resolve_state_fips sampleStates "TX" = .ok "48" ∧
    resolve_state_fips sampleStates "tx" = .ok "48" := by
  have hcl : correctly_loaded_states sampleStates := by
    refine ⟨⟨⟨"Texas", "TX", "48", pgon 1⟩, by decide, rfl, rfl, rfl⟩, ?_, ?_, ?_⟩ <;> decide
  refine ⟨?_, ?_, ?_, ?_⟩
  · exact ((resolve_state_rule_order_and_texas.2 sampleStates hcl "Texas").1 (by decide))
  · exact ((resolve_state_rule_order_and_texas.2 sampleStates hcl "tEXas").1 (by decide))
  · exact ((resolve_state_rule_order_and_texas.2 sampleStates hcl "TX").2 ⟨by decide, by decide⟩)
  · exact ((resolve_state_rule_order_and_texas.2 sampleStates hcl "tx").2 ⟨by decide, by decide⟩)


/-- C5 (amended): county boundary construction strips the input first; it
fails with `InvalidInput` exactly when the stripped input is not 5 characters
all numeric; for a well-formed stripped 5-digit code it fails with
`UnresolvedIdentifier` when no county row carries that GEOID and succeeds
when one does. -/
theorem county_code_validation (eng : GeoEngine) (states : StatesGDF)
    (counties : CountiesGDF) (code : String) :
    ((∃ m, build_boundary eng "fips" code states counties = .error (.invalidInput m)) ↔
      ¬((pyStrip code).length = 5 ∧ pyIsDigit (pyStrip code) = true))
    ∧ ((pyStrip code).length = 5 → pyIsDigit (pyStrip code) = true →
        (counties.rows.filter (fun r => r.GEOID == pyStrip code) = [] →
          ∃ m, build_boundary eng "fips" code states counties =
            .error (.unresolvedIdentifier m))
        ∧ (counties.rows.filter (fun r => r.GEOID == pyStrip code) ≠ [] →
          ∃ out, build_boundary eng "fips" code states counties = .ok out)) := by
  have hred : build_boundary eng "fips" code states counties =
      (if (pyStrip code).length != 5 || !pyIsDigit (pyStrip code) then
        Except.error (.invalidInput "County FIPS must be a 5-digit numeric code, e.g., 48113.")
      else if (counties.rows.filter (fun r => r.GEOID == pyStrip code)).isEmpty then
        Except.error (.unresolvedIdentifier
          ("No county found with FIPS " ++ pyStrip code ++ ". Use the 5-digit GEOID value."))
      else
        Except.ok (dissolve eng
          { crs := counties.crs
            features := (counties.rows.filter (fun r => r.GEOID == pyStrip code)).map
              countyFeature })) := rfl
  rw [hred]
  by_cases hvp : ((pyStrip code).length = 5 ∧ pyIsDigit (pyStrip code) = true)
  · have hC : ¬(((pyStrip code).length != 5 || !pyIsDigit (pyStrip code)) = true) := by
      simp [hvp.1, hvp.2]
    rw [if_neg hC]
    constructor
    · constructor
      · rintro ⟨m, hm⟩
        exfalso
        cases hcs : (counties.rows.filter (fun r => r.GEOID == pyStrip code)).isEmpty <;>
          rw [hcs] at hm <;> simp at hm
      · intro hnb
        exact absurd hvp hnb
    · intro h5 hd
      constructor
      · intro hn
        rw [hn]
        exact ⟨_, rfl⟩
      · intro hn
        cases hcs : counties.rows.filter (fun r => r.GEOID == pyStrip code) with
        | nil => exact absurd hcs hn
        | cons r rest => exact ⟨_, rfl⟩
  · have hC : (((pyStrip code).length != 5 || !pyIsDigit (pyStrip code)) = true) := by
      rw [Bool.or_eq_true, bne_iff_ne, Bool.not_eq_true']
      by_cases h5 : (pyStrip code).length = 5
      · cases hb : pyIsDigit (pyStrip code)
        · exact Or.inr rfl
        · exact absurd ⟨h5, hb⟩ hvp
      · exact Or.inl h5
    rw [if_pos hC]
    exact ⟨⟨fun _ => hvp, fun _ => ⟨_, rfl⟩⟩, fun h5 hd => absurd ⟨h5, hd⟩ hvp⟩

/-- Closed instance of `county_code_validation`: the 4-digit code 4811 and
the 6-digit code 481133 both fail with `InvalidInput`; the well-formed code
48113 resolves on the sample counties dataset. -/
theorem county_code_validation_witness :
    (∃ m, build_boundary idEngine "fips" "4811" sampleStates sampleCounties =
      .error (.invalidInput m)) ∧
    (∃ m, build_boundary idEngine "fips" "481133" sampleStates sampleCounties =
      .error (.invalidInput m)) ∧
    (∃ out, build_boundary idEngine "fips" "48113" sampleStates sampleCounties = .ok out) :=
  ⟨(county_code_validation idEngine sampleStates sampleCounties "4811").1.mpr (by decide),
   (county_code_validation idEngine sampleStates sampleCounties "481133").1.mpr (by decide),
   ((county_code_validation idEngine sampleStates sampleCounties "48113").2 (by decide)
     (by decide)).2 (by decide)⟩

/-- C5 counterexample: the input with surrounding blanks is 7 characters, so
the claim as stated demands an `InvalidInput` failure, but the code strips it
and the construction succeeds. -/
theorem county_code_strip_counterexample :
    (" 48113 ").length = 7 ∧
    build_boundary idEngine "fips" " 48113 " sampleStates sampleCounties =
      .ok { crs := some "EPSG:4269", features := [⟨[("GEOID", "48113")], pgon 3⟩] } := by
  constructor
  · rfl
  · rfl

/-- C6: when every pre-clip feature of the layer is of polygon family, every
feature of the clipped output is of polygon family too: the post-clip filter
removes any line or point geometry the intersection produced. -/
theorem clip_polygon_family_homogeneous (eng : GeoEngine) (base bdy out : GeoDataFrame)
    (hpoly : ∀ f ∈ base.features, f.geometry.geomType ∈ polygonish)
    (hok : clip_layer_to_boundary eng base bdy = .ok out) :
    ∀ f ∈ out.features, f.geometry.geomType ∈ polygonish := by
  unfold clip_layer_to_boundary at hok
  by_cases hc : base.crs = none ∨ bdy.crs = none
  · rw [if_pos hc] at hok
    cases hok
  · rw [if_neg hc] at hok
    have hsub : listSubset (geom_types base) polygonish = true := by
      unfold listSubset geom_types
      rw [List.all_eq_true]
      intro t ht
      obtain ⟨f, hf, rfl⟩ := List.mem_map.mp (List.mem_dedup.mp ht)
      exact List.elem_eq_true_of_mem (hpoly f hf)
    simp only [hsub, if_true, Except.ok.injEq] at hok
    subst hok
    intro f hf
    exact List.mem_of_elem_eq_true (List.mem_filter.mp hf).2

/-- Closed instance of `clip_polygon_family_homogeneous` on a concrete
polygon layer and a concrete output feature. -/
theorem clip_polygon_family_witness :
    (Feature.mk [("GEOID", "48113")] (pgon 3)).geometry.geomType ∈ polygonish :=
  clip_polygon_family_homogeneous idEngine polyBase sameCrsBdy polyBase
    (by decide) rfl (Feature.mk [("GEOID", "48113")] (pgon 3)) (by decide)

/-- C2 (amended): on a mixed or unrecognized pre-clip family the filter is
still applied, with the allowed set equal to the literal observed pre-clip
type set: a clipped feature appears in the output exactly when its geometry
type occurs among the pre-clip geometry types, so clipped features of a
novel type are dropped rather than passed through. -/
theorem clip_mixed_family_filter (eng : GeoEngine) (base bdy out : GeoDataFrame)
    (hp : listSubset (geom_types base) polygonish = false)
    (hl : listSubset (geom_types base) lineish = false)
    (hpt : listSubset (geom_types base) pointish = false)
    (hok : clip_layer_to_boundary eng base bdy = .ok out) :
    ∀ f ∈ (gpd_clip eng base (aligned_boundary eng base bdy)).features,
      (f.geometry.geomType ∈ geom_types base → f ∈ out.features) ∧
      (f.geometry.geomType ∉ geom_types base → f ∉ out.features) := by
  unfold clip_layer_to_boundary at hok
  by_cases hc : base.crs = none ∨ bdy.crs = none
  · rw [if_pos hc] at hok
    cases hok
  · rw [if_neg hc] at hok
    simp only [hp, hl, hpt, if_false, Except.ok.injEq] at hok
    subst hok
    intro f hf
    constructor
    · intro hmem
      exact List.mem_filter.mpr ⟨hf, List.elem_eq_true_of_mem hmem⟩
    · intro hmem hcontra
      exact hmem (List.mem_of_elem_eq_true (List.mem_filter.mp hcontra).2)

/-- Closed instance of `clip_mixed_family_filter`: the clipped line feature
of the concrete mixed layer, whose type occurs pre-clip, is in the output. -/
theorem clip_mixed_family_filter_witness :
    (Feature.mk [("ID", "2")] (lstr 11)) ∈
      (GeoDataFrame.mk (some "EPSG:4269") [⟨[("ID", "2")], lstr 11⟩]).features :=
  (clip_mixed_family_filter degenEngine mixedBase sameCrsBdy
      (GeoDataFrame.mk (some "EPSG:4269") [⟨[("ID", "2")], lstr 11⟩])
      rfl rfl rfl rfl (Feature.mk [("ID", "2")] (lstr 11)) (by decide)).1 (by decide)

/-- C2 counterexample: on a mixed polygon-and-line layer the clip produces a
degenerate point feature, and that feature does not appear in the output:
the fallback branch does filter the clipped result, dropping clipped
features whose type is outside the observed pre-clip set, contrary to the
claim that everything produced by the clip passes through. -/
theorem clip_mixed_family_counterexample :
    listSubset (geom_types mixedBase) polygonish = false ∧
    listSubset (geom_types mixedBase) lineish = false ∧
    listSubset (geom_types mixedBase) pointish = false ∧
    (Feature.mk [("ID", "1")] ⟨"Point", 99⟩) ∈
      (gpd_clip degenEngine mixedBase
        (aligned_boundary degenEngine mixedBase sameCrsBdy)).features ∧
    clip_layer_to_boundary degenEngine mixedBase sameCrsBdy =
      .ok { crs := some "EPSG:4269", features := [⟨[("ID", "2")], lstr 11⟩] } ∧
    (Feature.mk [("ID", "1")] ⟨"Point", 99⟩) ∉
      (GeoDataFrame.mk (some "EPSG:4269") [⟨[("ID", "2")], lstr 11⟩]).features := by
  refine ⟨rfl, rfl, rfl, ?_, rfl, ?_⟩
  · decide
  · decide

/-- Dissolving a nonempty frame yields exactly one feature whose geometry is
the union of all input geometries. -/
theorem dissolve_single (eng : GeoEngine) (g : GeoDataFrame) (hne : g.features ≠ []) :
    ∃ f, (dissolve eng g).features = [f] ∧
      f.geometry = eng.unionMany (g.features.map (fun x => x.geometry)) := by
  unfold dissolve
  cases hf : g.features with
  | nil => exact absurd hf hne
  | cons a rest => exact ⟨_, rfl, rfl⟩

/-- C8: every boundary returned by the state, county and city modes has
exactly one feature whose geometry is the union of all matched rows, even
with duplicate matches; and when the engine unions polygon-family geometries
into a polygon-family geometry and the reference rows are polygon-family,
that feature is a polygon or multi-polygon. -/
theorem boundary_single_union_polygonal (eng : GeoEngine)
    (hU : ∀ gs : List Geometry, (∀ g ∈ gs, g.geomType ∈ polygonish) →
      (eng.unionMany gs).geomType ∈ polygonish) :
    (∀ (bval : String) (states : StatesGDF) (counties : CountiesGDF) (out : GeoDataFrame),
      (∀ r ∈ states.rows, r.geometry.geomType ∈ polygonish) →
      build_boundary eng "state" bval states counties = .ok out →
      ∃ fips f, resolve_state_fips states (pyStrip bval) = .ok fips ∧
        out.features = [f] ∧
        f.geometry = eng.unionMany
          ((states.rows.filter (fun r => r.STATEFP == fips)).map (fun r => r.geometry)) ∧
        f.geometry.geomType ∈ polygonish)
    ∧ (∀ (bval : String) (states : StatesGDF) (counties : CountiesGDF) (out : GeoDataFrame),
      (∀ r ∈ counties.rows, r.geometry.geomType ∈ polygonish) →
      build_boundary eng "fips" bval states counties = .ok out →
      ∃ f, out.features = [f] ∧
        f.geometry = eng.unionMany
          ((counties.rows.filter (fun r => r.GEOID == pyStrip bval)).map
            (fun r => r.geometry)) ∧
        f.geometry.geomType ∈ polygonish)
    ∧ (∀ (city st : String) (states : StatesGDF) (places : PlacesGDF) (out : GeoDataFrame),
      (∀ r ∈ places.rows, r.geometry.geomType ∈ polygonish) →
      build_city_boundary eng city st states places = .ok out →
      ∃ fips f, resolve_state_fips states st = .ok fips ∧
        out.features = [f] ∧
        f.geometry = eng.unionMany
          ((places.rows.filter (fun r =>
            pyLower r.NAME == pyLower (pyStrip city) && r.STATEFP == fips)).map
            (fun r => r.geometry)) ∧
        f.geometry.geomType ∈ polygonish) := by
  refine ⟨?_, ?_, ?_⟩
  · intro bval states counties out hrows hok
    have hok2 : (match resolve_state_fips states (pyStrip bval) with
      | Except.error e => (Except.error e : Except Err GeoDataFrame)
      | Except.ok state_fips =>
        if (states.rows.filter (fun r => r.STATEFP == state_fips)).isEmpty = true then
          Except.error (Err.boundaryNotFound ("No state found for " ++ pyStrip bval ++ "."))
        else
          Except.ok (dissolve eng
            { crs := states.crs
              features := (states.rows.filter (fun r => r.STATEFP == state_fips)).map
                stateFeature })) = Except.ok out := hok
    cases hres : resolve_state_fips states (pyStrip bval) with
    | error e =>
      rw [hres] at hok2
      simp at hok2
    | ok fips =>
      rw [hres] at hok2
      have hok3 : (if (states.rows.filter (fun r => r.STATEFP == fips)).isEmpty = true then
          (Except.error (Err.boundaryNotFound ("No state found for " ++ pyStrip bval ++ ".")) :
            Except Err GeoDataFrame)
        else
          Except.ok (dissolve eng
            { crs := states.crs
              features := (states.rows.filter (fun r => r.STATEFP == fips)).map
                stateFeature })) = Except.ok out := hok2
      cases hfil : states.rows.filter (fun r => r.STATEFP == fips) with
      | nil =>
        rw [hfil] at hok3
        simp at hok3
      | cons a rest =>
        rw [hfil] at hok3
        simp only [List.isEmpty_cons, Bool.false_eq_true, if_false, Except.ok.injEq] at hok3
        subst hok3
        obtain ⟨f, hf1, hf2⟩ := dissolve_single eng
          { crs := states.crs, features := (a :: rest).map stateFeature } (by simp)
        have hf3 : f.geometry = eng.unionMany ((a :: rest).map (fun r => r.geometry)) := by
          rw [List.map_map] at hf2
          exact hf2
        refine ⟨fips, f, rfl, hf1, ?_, ?_⟩
        · rw [hfil]
          exact hf3
        · rw [hf3]
          refine hU _ ?_
          intro g hg
          obtain ⟨r, hr, rfl⟩ := List.mem_map.mp hg
          refine hrows r (List.mem_of_mem_filter (p := fun r => r.STATEFP == fips) ?_)
          rw [hfil]
          exact hr
  · intro bval states counties out hrows hok
    have hok2 : (if ((pyStrip bval).length != 5 || !pyIsDigit (pyStrip bval)) = true then
        (Except.error (Err.invalidInput
          "County FIPS must be a 5-digit numeric code, e.g., 48113.") :
          Except Err GeoDataFrame)
      else if (counties.rows.filter (fun r => r.GEOID == pyStrip bval)).isEmpty = true then
        Except.error (Err.unresolvedIdentifier
          ("No county found with FIPS " ++ pyStrip bval ++ ". Use the 5-digit GEOID value."))
      else
        Except.ok (dissolve eng
          { crs := counties.crs
            features := (counties.rows.filter (fun r => r.GEOID == pyStrip bval)).map
              countyFeature })) = Except.ok out := hok
    cases hv : ((pyStrip bval).length != 5 || !pyIsDigit (pyStrip bval)) with
    | true =>
      rw [hv] at hok2
      simp at hok2
    | false =>
      rw [hv] at hok2
      cases hfil : counties.rows.filter (fun r => r.GEOID == pyStrip bval) with
      | nil =>
        rw [hfil] at hok2
        simp at hok2
      | cons a rest =>
        rw [hfil] at hok2
        simp only [Bool.false_eq_true, if_false, List.isEmpty_cons, Except.ok.injEq] at hok2
        subst hok2
        obtain ⟨f, hf1, hf2⟩ := dissolve_single eng
          { crs := counties.crs, features := (a :: rest).map countyFeature } (by simp)
        have hf3 : f.geometry = eng.unionMany ((a :: rest).map (fun r => r.geometry)) := by
          rw [List.map_map] at hf2
          exact hf2
        refine ⟨f, hf1, hf3, ?_⟩
        · rw [hf3]
          refine hU _ ?_
          intro g hg
          obtain ⟨r, hr, rfl⟩ := List.mem_map.mp hg
          refine hrows r (List.mem_of_mem_filter (p := fun r => r.GEOID == pyStrip bval) ?_)
          rw [hfil]
          exact hr
  · intro city st states places out hrows hok
    have hok2 : (match resolve_state_fips states st with
      | Except.error e => (Except.error e : Except Err GeoDataFrame)
      | Except.ok state_fips =>
        if (places.rows.filter (fun r =>
            pyLower r.NAME == pyLower (pyStrip city) && r.STATEFP == state_fips)).isEmpty
            = true then
          Except.error (Err.boundaryNotFound
            ("No place named " ++ city ++ " found in state " ++ st ++
             " (STATEFP=" ++ state_fips ++ ")."))
        else
          Except.ok (dissolve eng
            { crs := places.crs
              features := (places.rows.filter (fun r =>
                pyLower r.NAME == pyLower (pyStrip city) && r.STATEFP == state_fips)).map
                placeFeature })) = Except.ok out := hok
    cases hres : resolve_state_fips states st with
    | error e =>
      rw [hres] at hok2
      simp at hok2
    | ok fips =>
      rw [hres] at hok2
      have hok3 : (if (places.rows.filter (fun r =>
            pyLower r.NAME == pyLower (pyStrip city) && r.STATEFP == fips)).isEmpty = true then
          (Except.error (Err.boundaryNotFound
            ("No place named " ++ city ++ " found in state " ++ st ++
             " (STATEFP=" ++ fips ++ ").")) : Except Err GeoDataFrame)
        else
          Except.ok (dissolve eng
            { crs := places.crs
              features := (places.rows.filter (fun r =>
                pyLower r.NAME == pyLower (pyStrip city) && r.STATEFP == fips)).map
                placeFeature })) = Except.ok out := hok2
      cases hfil : places.rows.filter (fun r =>
          pyLower r.NAME == pyLower (pyStrip city) && r.STATEFP == fips) with
      | nil =>
        rw [hfil] at hok3
        simp at hok3
      | cons a rest =>
        rw [hfil] at hok3
        simp only [List.isEmpty_cons, Bool.false_eq_true, if_false, Except.ok.injEq] at hok3
        subst hok3
        obtain ⟨f, hf1, hf2⟩ := dissolve_single eng
          { crs := places.crs, features := (a :: rest).map placeFeature } (by simp)
        have hf3 : f.geometry = eng.unionMany ((a :: rest).map (fun r => r.geometry)) := by
          rw [List.map_map] at hf2
          exact hf2
        refine ⟨fips, f, rfl, hf1, ?_, ?_⟩
        · rw [hfil]
          exact hf3
        · rw [hf3]
          refine hU _ ?_
          intro g hg
          obtain ⟨r, hr, rfl⟩ := List.mem_map.mp hg
          refine hrows r (List.mem_of_mem_filter
            (p := fun r => pyLower r.NAME == pyLower (pyStrip city) && r.STATEFP == fips) ?_)
          rw [hfil]
          exact hr

/-- Closed instance of `boundary_single_union_polygonal`: the county mode on
GEOID 48113 returns a single multi-polygon feature. -/
theorem boundary_single_union_witness :
    ∃ f, (GeoDataFrame.mk (some "EPSG:4269")
        [⟨[("GEOID", "48113")], ⟨"MultiPolygon", 0⟩⟩]).features = [f] ∧
      f.geometry = polyEngine.unionMany
        ((sampleCounties.rows.filter (fun r => r.GEOID == pyStrip "48113")).map
          (fun r => r.geometry)) ∧
      f.geometry.geomType ∈ polygonish :=
  (boundary_single_union_polygonal polyEngine
      (fun gs h => show ("MultiPolygon" : String) ∈ polygonish by decide)).2.1
    "48113" sampleStates sampleCounties
    (GeoDataFrame.mk (some "EPSG:4269") [⟨[("GEOID", "48113")], ⟨"MultiPolygon", 0⟩⟩])
    (by decide) rfl
